import Mathlib

/-!
Verification development for the Joavz_Star_structure repository.

Shallow embedding of the parts of the code that the claims refer to:
floating-point quantities are modelled as real numbers, numpy scalar
operations as the corresponding real operations, and Python exceptions as
values of an Except type.  External library calls (scipy.integrate.solve_ivp,
scipy.interpolate.CubicSpline) are abstracted as explicit inputs or are
embedded following their documented behaviour; each such point is noted in
the doc comment of the definition that uses it.
-/

open Real

namespace Joavz

/- ===================== PolytropicEOS (src/eos_library.py lines 28-62) ===================== -/

/-- PolytropicEOS state: the constructor stores k and m = 1 + 1/n
(src/eos_library.py lines 32-40). -/
structure PolytropicEOS where
  k : ℝ
  m : ℝ

/-- PolytropicEOS.__init__ (src/eos_library.py lines 32-40): stores k and m = 1 + 1/n. -/
noncomputable def PolytropicEOS.build (k n : ℝ) : PolytropicEOS :=
  { k := k, m := 1 + 1 / n }

/-- PolytropicEOS.rho (src/eos_library.py line 51): np.abs(p / k) ** (1 / m),
with numpy power on a non-negative base embedded as real rpow. -/
noncomputable def PolytropicEOS.rho (e : PolytropicEOS) (p : ℝ) : ℝ :=
  |p / e.k| ^ (1 / e.m)

/-- PolytropicEOS.p (src/eos_library.py line 62): k * rho ** m, embedded as real rpow
(the physical domain keeps the base non-negative, where Python float power and
real rpow agree). -/
noncomputable def PolytropicEOS.p (e : PolytropicEOS) (rho : ℝ) : ℝ :=
  e.k * rho ^ e.m

/- ===================== QuarkEOS (src/eos_library.py lines 115-174) ===================== -/

/-- QuarkEOS state: the constructor stores B, a2, a4 unchanged, with no validation
(src/eos_library.py lines 120-130). -/
structure QuarkEOS where
  B : ℝ
  a2 : ℝ
  a4 : ℝ

/-- QuarkEOS.__init__ (src/eos_library.py lines 120-130): stores the three parameters;
the body performs no check of any kind. -/
def QuarkEOS.build (B a2 a4 : ℝ) : QuarkEOS :=
  { B := B, a2 := a2, a4 := a4 }

/-- Radicand of the square root in QuarkEOS.rho (src/eos_library.py line 148). -/
noncomputable def QuarkEOS.rhoRadicand (q : QuarkEOS) (p : ℝ) : ℝ :=
  1 + ((16 * π ^ 2 * q.a4) / (3 * q.a2 ^ 2)) * (p + q.B)

/-- QuarkEOS.rho (src/eos_library.py lines 132-152), with ** (1/2) embedded as Real.sqrt;
on a negative radicand Python ** (1/2) does not return a real number (see rhoReal?),
while Real.sqrt returns 0, so the claims about this definition carry the
non-negative-radicand hypothesis. -/
noncomputable def QuarkEOS.rho (q : QuarkEOS) (p : ℝ) : ℝ :=
  3 * p + 4 * q.B + ((3 * q.a2 ^ 2) / (4 * π ^ 2 * q.a4)) *
    (1 + Real.sqrt (q.rhoRadicand p))

/-- Radicand of the square root in QuarkEOS.p (src/eos_library.py line 170). -/
noncomputable def QuarkEOS.pRadicand (q : QuarkEOS) (rho : ℝ) : ℝ :=
  1 + ((16 * π ^ 2 * q.a4) / q.a2 ^ 2) * (rho - q.B)

/-- QuarkEOS.p (src/eos_library.py lines 154-174), with ** (1/2) embedded as Real.sqrt. -/
noncomputable def QuarkEOS.p (q : QuarkEOS) (rho : ℝ) : ℝ :=
  (1 / 3) * (rho - 4 * q.B) - (q.a2 ^ 2 / (12 * π ^ 2 * q.a4)) *
    (1 + Real.sqrt (q.pRadicand rho))

open Classical in
/-- Python semantics of QuarkEOS.rho at a scalar float: x ** (1/2) returns a real float
only when x is non-negative; on a negative base Python returns a complex number
(numpy: NaN) without raising.  The none result marks that silent non-real outcome. -/
noncomputable def QuarkEOS.rhoReal? (q : QuarkEOS) (p : ℝ) : Option ℝ :=
  if 0 ≤ q.rhoRadicand p then some (q.rho p) else none

open Classical in
/-- Python semantics of QuarkEOS.p at a scalar float, as in rhoReal?. -/
noncomputable def QuarkEOS.pReal? (q : QuarkEOS) (rho : ℝ) : Option ℝ :=
  if 0 ≤ q.pRadicand rho then some (q.p rho) else none

/- ===================== TableEOS (src/eos_library.py lines 65-112) ===================== -/

/-- Interpolating parabola through three points, in Lagrange form.
The source builds its interpolants with scipy.interpolate.CubicSpline under the
default not-a-knot boundary condition (src/eos_library.py lines 83-84); scipy
documents that with exactly three data points this returns the parabola through
the points, which is what this definition is. -/
noncomputable def notAKnotSpline3 (x0 y0 x1 y1 x2 y2 x : ℝ) : ℝ :=
  y0 * ((x - x1) * (x - x2)) / ((x0 - x1) * (x0 - x2)) +
  y1 * ((x - x0) * (x - x2)) / ((x1 - x0) * (x1 - x2)) +
  y2 * ((x - x0) * (x - x1)) / ((x2 - x0) * (x2 - x1))

/-- TableEOS built from a three-row table (src/eos_library.py lines 69-90): the rows
(rho_i, p_i) are the table columns after unit conversion, in file order
(ascending: row 0 is the surface, row 2 the center). -/
structure TableEOS3 where
  rho0 : ℝ
  p0 : ℝ
  rho1 : ℝ
  p1 : ℝ
  rho2 : ℝ
  p2 : ℝ

open Classical in
/-- TableEOS.rho (src/eos_library.py lines 92-101): evaluates the CubicSpline of rho
versus p built with extrapolate=False, which returns NaN outside the covered range
(embedded as none). -/
noncomputable def TableEOS3.rho (e : TableEOS3) (p : ℝ) : Option ℝ :=
  if e.p0 ≤ p ∧ p ≤ e.p2 then
    some (notAKnotSpline3 e.p0 e.rho0 e.p1 e.rho1 e.p2 e.rho2 p)
  else none

open Classical in
/-- TableEOS.p (src/eos_library.py lines 103-112): evaluates the CubicSpline of p
versus rho built with extrapolate=False. -/
noncomputable def TableEOS3.p (e : TableEOS3) (rho : ℝ) : Option ℝ :=
  if e.rho0 ≤ rho ∧ rho ≤ e.rho2 then
    some (notAKnotSpline3 e.rho0 e.p0 e.rho1 e.p1 e.rho2 e.p2 rho)
  else none

/- ===================== Star (src/star_structure.py lines 6-69) ===================== -/

/-- Star state (src/star_structure.py lines 8-23): the constructor stores the EOS
function, the central values, the surface pressure, and initializes radius and
mass to 0. -/
structure Star where
  rho : ℝ → ℝ
  p_0 : ℝ
  m_0 : ℝ
  rho_0 : ℝ
  p_surface : ℝ
  star_radius : ℝ
  star_mass : ℝ

/-- Star.__init__ (src/star_structure.py lines 8-23). -/
def Star.build (rho_eos : ℝ → ℝ) (p_center p_surface : ℝ) : Star :=
  { rho := rho_eos, p_0 := p_center, m_0 := 0, rho_0 := rho_eos p_center,
    p_surface := p_surface, star_radius := 0, star_mass := 0 }

/-- Outcome of the scipy.integrate.solve_ivp call in Star.solve_tov
(src/star_structure.py line 42), abstracted as data: the solver status
(-1 integration step failed, 0 reached the end of the radial span, 1 the
terminal event fired), the solver diagnostic message, the last accepted step
(t[-1], y[0][-1], y[1][-1]), and the event-localized point
(t_events[0][0], y_events[0][0][0], y_events[0][0][1]). -/
structure OdeSolution where
  status : Int
  message : String
  tFinal : ℝ
  pFinal : ℝ
  mFinal : ℝ
  tEvent0 : ℝ
  pEvent0 : ℝ
  mEvent0 : ℝ

/-- Status handling of Star.solve_tov (src/star_structure.py lines 48-58): status -1
raises Exception(ode_solution.message); status 0 raises the fixed event-not-found
Exception; status 1 sets star_radius from t_events[0][0] and star_mass from
y_events[0][0][1] and the method then returns normally.  Any other status falls
through the if/elif chain leaving radius and mass unchanged (scipy only produces
-1, 0, 1).  The subsequent construction of the dense radial interpolants
(lines 60-69) only packages the solution for plotting and is referenced by no
claim, so it is not part of the state modelled here. -/
def Star.solve_tov_body (s : Star) (sol : OdeSolution) : Except String Star :=
  if sol.status = -1 then .error sol.message
  else if sol.status = 0 then .error "The solver did not find the ODE termination event"
  else if sol.status = 1 then
    .ok { s with star_radius := sol.tEvent0, star_mass := sol.mEvent0 }
  else .ok s

/- ===================== StarFamily (src/star_family.py lines 8-50) ===================== -/

/-- StarFamily state (src/star_family.py lines 13-26): stores the p_center sequence
and the single Star object built from its first entry. -/
structure StarFamily where
  p_center_space : List ℝ
  star_object : Star

/-- StarFamily.__init__ (src/star_family.py lines 13-26): indexing p_center_space[0]
on an empty sequence raises IndexError; otherwise a Star is built from the first
entry and stored. -/
def StarFamily.build (rho_eos : ℝ → ℝ) (p_center_space : List ℝ) (p_surface : ℝ) :
    Except String StarFamily :=
  match p_center_space with
  | [] => .error "IndexError: index 0 is out of bounds for axis 0 with size 0"
  | p0 :: _ => .ok { p_center_space := p_center_space,
                     star_object := Star.build rho_eos p0 p_surface }

/-- Number of positional parameters that Star.solve_tov declares after self in
src/star_structure.py line 39: r_begin, r_end, r_nsamples, method. -/
def starSolveTovParamCount : Nat := 4

/-- Number of positional arguments that StarFamily.solve_tov passes to
star_object.solve_tov at src/star_family.py line 47:
p_center_space[k], r_begin, r_end, method, max_step, atol, rtol. -/
def familySolveTovArgCount : Nat := 7

/-- Python call semantics for the bound method call at src/star_family.py line 47:
a call with more positional arguments than declared parameters raises TypeError
before the method body runs. -/
def starSolveTovDispatch (s : Star) (argCount : Nat) (sol : OdeSolution) :
    Except String Star :=
  if argCount ≤ starSolveTovParamCount then Star.solve_tov_body s sol
  else .error "TypeError: solve_tov() takes from 1 to 5 positional arguments but 8 were given"

/-- Loop body of StarFamily.solve_tov (src/star_family.py lines 44-50): for each k it
calls star_object.solve_tov with 7 positional arguments (line 47) and then reads
radius_array[k] and mass_array[k] from the mutated star object.  The solve_ivp
outcome that the Star body would consume is abstracted as a function of the star's
stored central pressure p_0 (the only central pressure the Star class of
src/star_structure.py ever reads).  A raised exception propagates out of the loop. -/
def StarFamily.solve_tov_loop (tov : ℝ → OdeSolution) :
    Star → List ℝ → Except String (Star × List ℝ × List ℝ)
  | star, [] => .ok (star, [], [])
  | star, _ :: rest => do
      let star' ← starSolveTovDispatch star familySolveTovArgCount (tov star.p_0)
      let (starEnd, rs, ms) ← StarFamily.solve_tov_loop tov star' rest
      .ok (starEnd, star'.star_radius :: rs, star'.star_mass :: ms)

/-- StarFamily.solve_tov (src/star_family.py lines 28-50): runs the loop over the
stored p_center sequence, returning the radius and mass arrays that the loop filled. -/
def StarFamily.solve_tov (fam : StarFamily) (tov : ℝ → OdeSolution) :
    Except String (Star × List ℝ × List ℝ) :=
  StarFamily.solve_tov_loop tov fam.star_object fam.p_center_space

/- ============== DeformedStarFamily (src/star_family_tides.py lines 11-97) ============== -/

/-- DeformedStarFamily state, restricted to the fields the claims reference
(src/star_family_tides.py lines 19-48). -/
structure DeformedStarFamily where
  p_center_space : List ℝ
  k2_array : List ℝ
  maximum_k2_star_rho_center : ℝ
  maximum_k2 : EReal

/-- DeformedStarFamily.__init__ (src/star_family_tides.py lines 19-48).  Its parent
class StarFamily is imported from star_family_structure, which is not among the
source files; modelled from the spec: per spec section 4.3 (and the sibling
src/star_family.py) the parent stores the p_center sequence, and MAX_RHO is a
class constant of that parent (a maximum-density bound), taken here as a
parameter.  Line 43 unconditionally indexes self.p_center_space[0] to build the
DeformedStar object, so construction on an empty sequence raises IndexError
regardless of the parent; lines 46-48 initialize k2_array to zeros of the input
size, maximum_k2_star_rho_center to MAX_RHO, and maximum_k2 to np.inf. -/
def DeformedStarFamily.build (MAX_RHO : ℝ) (p_center_space : List ℝ) :
    Except String DeformedStarFamily :=
  match p_center_space with
  | [] => .error "IndexError: index 0 is out of bounds for axis 0 with size 0"
  | _ :: _ => .ok { p_center_space := p_center_space,
                    k2_array := List.replicate p_center_space.length 0,
                    maximum_k2_star_rho_center := MAX_RHO,
                    maximum_k2 := ⊤ }

/-- DeformedStarFamily._calc_maximum_k2_star (src/star_family_tides.py lines 71-86),
parameterized by the scipy objects it builds: k2_spline is the CubicSpline of
k2_array versus rho_center_space, and roots is the array returned by
dk2_drho_center_spline.roots() — scipy documents the roots of a piecewise
polynomial built with extrapolate=False to lie inside the interpolation range and
to be listed in ascending order, which the claims take as a hypothesis.  If roots
is nonempty the method overwrites maximum_k2_star_rho_center with roots[0] and
maximum_k2 with k2_spline(roots[0]); otherwise both fields keep their current
values.  Either way it returns the (possibly unchanged) maximum_k2_star_rho_center. -/
def DeformedStarFamily.calc_maximum_k2_star (fam : DeformedStarFamily)
    (k2_spline : ℝ → ℝ) (roots : List ℝ) : DeformedStarFamily × ℝ :=
  match roots with
  | [] => (fam, fam.maximum_k2_star_rho_center)
  | r :: _ =>
      ({ fam with maximum_k2_star_rho_center := r,
                  maximum_k2 := ((k2_spline r : ℝ) : EReal) }, r)

/- ===================== Concrete sample values used by witnesses ===================== -/

/-- Sample solve_ivp outcome for the C1 evaluation (its content is never reached). -/
noncomputable def solC1 : OdeSolution :=
  { status := 1, message := "", tFinal := 0, pFinal := 0, mFinal := 0,
    tEvent0 := 0, pEvent0 := 0, mEvent0 := 0 }

/-- The family that StarFamily.__init__ builds on the two-entry sequence used in C1. -/
noncomputable def famC1 : StarFamily :=
  { p_center_space := [1, 2], star_object := Star.build (fun p => p) 1 0 }

/-- Sample star for the C5 witness. -/
noncomputable def starC5 : Star := Star.build (fun _ => 0) 1 0

/-- Sample successful solve_ivp outcome for the C5 witness: the event point differs
from the last accepted step. -/
noncomputable def solC5 : OdeSolution :=
  { status := 1, message := "", tFinal := 6, pFinal := 0, mFinal := 3,
    tEvent0 := 5, pEvent0 := 0, mEvent0 := 2 }

/-- The star that solve_tov produces on starC5 and solC5. -/
noncomputable def starC5ok : Star := { starC5 with star_radius := 5, star_mass := 2 }

/-- Sample star for the C6 witness. -/
noncomputable def starC6 : Star := Star.build (fun _ => 0) 1 0

/-- Sample failed solve_ivp outcome for the C6 witness. -/
noncomputable def solC6 : OdeSolution :=
  { status := -1, message := "Required step size is less than spacing between numbers.",
    tFinal := 0, pFinal := 0, mFinal := 0, tEvent0 := 0, pEvent0 := 0, mEvent0 := 0 }

/-- Sample family for the C7 witness. -/
noncomputable def dfamC7 : DeformedStarFamily :=
  { p_center_space := [1, 2], k2_array := [0, 0],
    maximum_k2_star_rho_center := 5, maximum_k2 := ⊤ }

/-- The family that DeformedStarFamily.__init__ builds in the C8 counterexample. -/
noncomputable def dfamC8 : DeformedStarFamily :=
  { p_center_space := [1], k2_array := [0],
    maximum_k2_star_rho_center := 5, maximum_k2 := ⊤ }


/- ============ Derived coefficient and concrete EOS samples ============ -/

/-- Combined coefficient of the QuarkEOS formulas: both closed forms are rational
expressions in T = 16 pi^2 a4 / a2^2. -/
noncomputable def QuarkEOS.T (q : QuarkEOS) : ℝ := 16 * π ^ 2 * q.a4 / q.a2 ^ 2

/-- Sample QuarkEOS with B = 1, a2 = 1, a4 = 3/(16 pi^2), chosen so that its combined
coefficient T equals 3 and the closed forms evaluate to rational numbers. -/
noncomputable def quarkSample : QuarkEOS := QuarkEOS.build 1 1 (3 / (16 * π ^ 2))

/-- Sample three-row table, strictly increasing on both columns:
(p, rho) = (0, 0), (1, 9), (2, 10). -/
noncomputable def tableSample : TableEOS3 :=
  { rho0 := 0, p0 := 0, rho1 := 9, p1 := 1, rho2 := 10, p2 := 2 }


/- ===================== Helper lemmas for the EOS algebra ===================== -/

lemma quark_T_ne_zero (q : QuarkEOS) (ha2 : q.a2 ≠ 0) (ha4 : q.a4 ≠ 0) : q.T ≠ 0 := by
  unfold QuarkEOS.T
  have hpi := Real.pi_ne_zero
  positivity

lemma quark_T_pos (q : QuarkEOS) (ha2 : q.a2 ≠ 0) (ha4 : 0 < q.a4) : 0 < q.T := by
  unfold QuarkEOS.T
  have hpi := Real.pi_pos
  positivity

lemma quark_rhoRadicand_T_form (q : QuarkEOS) (p : ℝ) (ha2 : q.a2 ≠ 0) (ha4 : q.a4 ≠ 0) :
    q.rhoRadicand p = 1 + (q.T / 3) * (p + q.B) := by
  unfold QuarkEOS.rhoRadicand QuarkEOS.T
  field_simp
  ring

lemma quark_pRadicand_T_form (q : QuarkEOS) (rho : ℝ) (ha2 : q.a2 ≠ 0) (ha4 : q.a4 ≠ 0) :
    q.pRadicand rho = 1 + q.T * (rho - q.B) := by
  unfold QuarkEOS.pRadicand QuarkEOS.T
  field_simp

lemma quark_rho_T_form (q : QuarkEOS) (p : ℝ) (ha2 : q.a2 ≠ 0) (ha4 : q.a4 ≠ 0) :
    q.rho p = 3 * p + 4 * q.B + (12 / q.T) * (1 + Real.sqrt (q.rhoRadicand p)) := by
  unfold QuarkEOS.rho QuarkEOS.T
  have hpi := Real.pi_ne_zero
  field_simp
  ring

lemma quark_p_T_form (q : QuarkEOS) (rho : ℝ) (ha2 : q.a2 ≠ 0) (ha4 : q.a4 ≠ 0) :
    q.p rho = (1 / 3) * (rho - 4 * q.B) -
      (4 / (3 * q.T)) * (1 + Real.sqrt (q.pRadicand rho)) := by
  unfold QuarkEOS.p QuarkEOS.T
  have hpi := Real.pi_ne_zero
  field_simp
  ring

lemma quark_p_rho_exact (q : QuarkEOS) (p : ℝ) (ha2 : q.a2 ≠ 0) (ha4 : q.a4 ≠ 0)
    (hrad : 0 ≤ q.rhoRadicand p) : q.p (q.rho p) = p := by
  have hT : q.T ≠ 0 := quark_T_ne_zero q ha2 ha4
  set s := Real.sqrt (q.rhoRadicand p) with hs_def
  have hs0 : 0 ≤ s := Real.sqrt_nonneg _
  have hs2 : s ^ 2 = 1 + (q.T / 3) * (p + q.B) := by
    rw [hs_def, Real.sq_sqrt hrad, quark_rhoRadicand_T_form q p ha2 ha4]
  have hpr : q.pRadicand (q.rho p) = (3 * s + 2) ^ 2 := by
    rw [quark_pRadicand_T_form _ _ ha2 ha4, quark_rho_T_form _ _ ha2 ha4, ← hs_def]
    field_simp
    linear_combination (-9 : ℝ) * hs2
  have hsq : Real.sqrt (q.pRadicand (q.rho p)) = 3 * s + 2 := by
    rw [hpr, Real.sqrt_sq (by linarith)]
  rw [quark_p_T_form _ _ ha2 ha4, hsq, quark_rho_T_form _ _ ha2 ha4, ← hs_def]
  field_simp
  ring

lemma quark_rho_p_exact (q : QuarkEOS) (rho : ℝ) (ha2 : q.a2 ≠ 0) (ha4 : q.a4 ≠ 0)
    (h4 : 4 ≤ q.pRadicand rho) : q.rho (q.p rho) = rho := by
  have hT : q.T ≠ 0 := quark_T_ne_zero q ha2 ha4
  set u := Real.sqrt (q.pRadicand rho) with hu_def
  have hu2 : u ^ 2 = 1 + q.T * (rho - q.B) := by
    rw [hu_def, Real.sq_sqrt (by linarith), quark_pRadicand_T_form q rho ha2 ha4]
  have hu_ge : 2 ≤ u := by
    have h := Real.sqrt_le_sqrt h4
    rwa [show Real.sqrt 4 = 2 by
      rw [show (4 : ℝ) = 2 ^ 2 by norm_num, Real.sqrt_sq (by norm_num)]] at h
  have hrr : q.rhoRadicand (q.p rho) = ((u - 2) / 3) ^ 2 := by
    rw [quark_rhoRadicand_T_form _ _ ha2 ha4, quark_p_T_form _ _ ha2 ha4, ← hu_def]
    field_simp
    linear_combination (-27 * q.T) * hu2
  have hsq : Real.sqrt (q.rhoRadicand (q.p rho)) = (u - 2) / 3 := by
    rw [hrr, Real.sqrt_sq (by linarith)]
  rw [quark_rho_T_form _ _ ha2 ha4, hsq, quark_p_T_form _ _ ha2 ha4, ← hu_def]
  field_simp
  ring

lemma quark_rho_mono (q : QuarkEOS) (p1 p2 : ℝ) (ha2 : q.a2 ≠ 0) (ha4 : 0 < q.a4)
    (hrad1 : 0 ≤ q.rhoRadicand p1) (h12 : p1 ≤ p2) : q.rho p1 ≤ q.rho p2 := by
  have hT : 0 < q.T := quark_T_pos q ha2 ha4
  have hrad : q.rhoRadicand p1 ≤ q.rhoRadicand p2 := by
    rw [quark_rhoRadicand_T_form _ _ ha2 ha4.ne', quark_rhoRadicand_T_form _ _ ha2 ha4.ne']
    nlinarith
  have hs : Real.sqrt (q.rhoRadicand p1) ≤ Real.sqrt (q.rhoRadicand p2) :=
    Real.sqrt_le_sqrt hrad
  rw [quark_rho_T_form _ _ ha2 ha4.ne', quark_rho_T_form _ _ ha2 ha4.ne']
  have hc : 0 < 12 / q.T := by positivity
  nlinarith

lemma quark_p_mono (q : QuarkEOS) (r1 r2 : ℝ) (ha2 : q.a2 ≠ 0) (ha4 : 0 < q.a4)
    (h4 : 4 ≤ q.pRadicand r1) (h12 : r1 ≤ r2) : q.p r1 ≤ q.p r2 := by
  have hT : 0 < q.T := quark_T_pos q ha2 ha4
  set u1 := Real.sqrt (q.pRadicand r1) with hu1_def
  set u2 := Real.sqrt (q.pRadicand r2) with hu2_def
  have hrad12 : q.pRadicand r1 ≤ q.pRadicand r2 := by
    rw [quark_pRadicand_T_form _ _ ha2 ha4.ne', quark_pRadicand_T_form _ _ ha2 ha4.ne']
    nlinarith
  have hu1sq : u1 ^ 2 = 1 + q.T * (r1 - q.B) := by
    rw [hu1_def, Real.sq_sqrt (by linarith), quark_pRadicand_T_form _ _ ha2 ha4.ne']
  have hu2sq : u2 ^ 2 = 1 + q.T * (r2 - q.B) := by
    rw [hu2_def, Real.sq_sqrt (by linarith), quark_pRadicand_T_form _ _ ha2 ha4.ne']
  have hu1_ge : 2 ≤ u1 := by
    have h := Real.sqrt_le_sqrt h4
    rwa [show Real.sqrt 4 = 2 by
      rw [show (4 : ℝ) = 2 ^ 2 by norm_num, Real.sqrt_sq (by norm_num)]] at h
  have hu12 : u1 ≤ u2 := Real.sqrt_le_sqrt hrad12
  have hprod : 0 ≤ (u2 - u1) * (u1 + u2 - 4) := by nlinarith
  have key : 4 * (u2 - u1) ≤ q.T * (r2 - r1) := by nlinarith
  have key2 : (4 / (3 * q.T)) * (u2 - u1) ≤ (1 / 3) * (r2 - r1) := by
    rw [div_mul_eq_mul_div, div_le_iff₀ (by positivity)]
    nlinarith
  rw [quark_p_T_form _ _ ha2 ha4.ne', quark_p_T_form _ _ ha2 ha4.ne', ← hu1_def, ← hu2_def]
  nlinarith [key2]

lemma poly_p_rho_exact (k n p0 : ℝ) (hk : 0 < k) (hn : 0 < n) (hp : 0 ≤ p0) :
    (PolytropicEOS.build k n).p ((PolytropicEOS.build k n).rho p0) = p0 := by
  unfold PolytropicEOS.build PolytropicEOS.rho PolytropicEOS.p
  simp only
  have hm : (0 : ℝ) < 1 + 1 / n := by positivity
  have hbase : (0 : ℝ) ≤ p0 / k := div_nonneg hp hk.le
  rw [abs_of_nonneg hbase, ← Real.rpow_mul hbase, one_div_mul_cancel hm.ne',
    Real.rpow_one]
  field_simp

lemma poly_rho_p_exact (k n r0 : ℝ) (hk : 0 < k) (hn : 0 < n) (hr : 0 ≤ r0) :
    (PolytropicEOS.build k n).rho ((PolytropicEOS.build k n).p r0) = r0 := by
  unfold PolytropicEOS.build PolytropicEOS.rho PolytropicEOS.p
  simp only
  have hm : (0 : ℝ) < 1 + 1 / n := by positivity
  rw [mul_div_cancel_left₀ _ hk.ne', abs_of_nonneg (Real.rpow_nonneg hr _),
    ← Real.rpow_mul hr, mul_one_div_cancel hm.ne', Real.rpow_one]

lemma poly_rho_mono (k n p1 p2 : ℝ) (hk : 0 < k) (hn : 0 < n) (hp1 : 0 ≤ p1)
    (h12 : p1 ≤ p2) :
    (PolytropicEOS.build k n).rho p1 ≤ (PolytropicEOS.build k n).rho p2 := by
  unfold PolytropicEOS.build PolytropicEOS.rho
  simp only
  have hexp : (0 : ℝ) ≤ 1 / (1 + 1 / n) := by positivity
  rw [abs_of_nonneg (div_nonneg hp1 hk.le),
    abs_of_nonneg (div_nonneg (hp1.trans h12) hk.le)]
  exact Real.rpow_le_rpow (div_nonneg hp1 hk.le) (by gcongr) hexp

lemma poly_p_mono (k n r1 r2 : ℝ) (hk : 0 < k) (hn : 0 < n) (hr1 : 0 ≤ r1)
    (h12 : r1 ≤ r2) :
    (PolytropicEOS.build k n).p r1 ≤ (PolytropicEOS.build k n).p r2 := by
  unfold PolytropicEOS.build PolytropicEOS.p
  simp only
  have hm : (0 : ℝ) < 1 + 1 / n := by positivity
  exact mul_le_mul_of_nonneg_left (Real.rpow_le_rpow hr1 h12 hm.le) hk.le

lemma spline3_at_knot0 (x0 y0 x1 y1 x2 y2 : ℝ) (h01 : x0 ≠ x1) (h02 : x0 ≠ x2)
    (h12 : x1 ≠ x2) : notAKnotSpline3 x0 y0 x1 y1 x2 y2 x0 = y0 := by
  unfold notAKnotSpline3
  have h01' : x0 - x1 ≠ 0 := sub_ne_zero.mpr h01
  have h02' : x0 - x2 ≠ 0 := sub_ne_zero.mpr h02
  have h10' : x1 - x0 ≠ 0 := sub_ne_zero.mpr h01.symm
  have h12' : x1 - x2 ≠ 0 := sub_ne_zero.mpr h12
  have h20' : x2 - x0 ≠ 0 := sub_ne_zero.mpr h02.symm
  have h21' : x2 - x1 ≠ 0 := sub_ne_zero.mpr h12.symm
  field_simp

lemma spline3_at_knot1 (x0 y0 x1 y1 x2 y2 : ℝ) (h01 : x0 ≠ x1) (h02 : x0 ≠ x2)
    (h12 : x1 ≠ x2) : notAKnotSpline3 x0 y0 x1 y1 x2 y2 x1 = y1 := by
  unfold notAKnotSpline3
  have h01' : x0 - x1 ≠ 0 := sub_ne_zero.mpr h01
  have h02' : x0 - x2 ≠ 0 := sub_ne_zero.mpr h02
  have h10' : x1 - x0 ≠ 0 := sub_ne_zero.mpr h01.symm
  have h12' : x1 - x2 ≠ 0 := sub_ne_zero.mpr h12
  have h20' : x2 - x0 ≠ 0 := sub_ne_zero.mpr h02.symm
  have h21' : x2 - x1 ≠ 0 := sub_ne_zero.mpr h12.symm
  field_simp

lemma spline3_at_knot2 (x0 y0 x1 y1 x2 y2 : ℝ) (h01 : x0 ≠ x1) (h02 : x0 ≠ x2)
    (h12 : x1 ≠ x2) : notAKnotSpline3 x0 y0 x1 y1 x2 y2 x2 = y2 := by
  unfold notAKnotSpline3
  have h01' : x0 - x1 ≠ 0 := sub_ne_zero.mpr h01
  have h02' : x0 - x2 ≠ 0 := sub_ne_zero.mpr h02
  have h10' : x1 - x0 ≠ 0 := sub_ne_zero.mpr h01.symm
  have h12' : x1 - x2 ≠ 0 := sub_ne_zero.mpr h12
  have h20' : x2 - x0 ≠ 0 := sub_ne_zero.mpr h02.symm
  have h21' : x2 - x1 ≠ 0 := sub_ne_zero.mpr h12.symm
  field_simp

lemma table_rho_knots (e : TableEOS3) (hr01 : e.rho0 < e.rho1) (hr12 : e.rho1 < e.rho2)
    (hp01 : e.p0 < e.p1) (hp12 : e.p1 < e.p2) :
    e.rho e.p0 = some e.rho0 ∧ e.rho e.p1 = some e.rho1 ∧ e.rho e.p2 = some e.rho2 := by
  unfold TableEOS3.rho
  refine ⟨?_, ?_, ?_⟩
  · rw [if_pos ⟨le_refl _, le_of_lt (hp01.trans hp12)⟩,
      spline3_at_knot0 _ _ _ _ _ _ hp01.ne (hp01.trans hp12).ne hp12.ne]
  · rw [if_pos ⟨hp01.le, hp12.le⟩,
      spline3_at_knot1 _ _ _ _ _ _ hp01.ne (hp01.trans hp12).ne hp12.ne]
  · rw [if_pos ⟨le_of_lt (hp01.trans hp12), le_refl _⟩,
      spline3_at_knot2 _ _ _ _ _ _ hp01.ne (hp01.trans hp12).ne hp12.ne]

lemma table_p_knots (e : TableEOS3) (hr01 : e.rho0 < e.rho1) (hr12 : e.rho1 < e.rho2)
    (hp01 : e.p0 < e.p1) (hp12 : e.p1 < e.p2) :
    e.p e.rho0 = some e.p0 ∧ e.p e.rho1 = some e.p1 ∧ e.p e.rho2 = some e.p2 := by
  unfold TableEOS3.p
  refine ⟨?_, ?_, ?_⟩
  · rw [if_pos ⟨le_refl _, le_of_lt (hr01.trans hr12)⟩,
      spline3_at_knot0 _ _ _ _ _ _ hr01.ne (hr01.trans hr12).ne hr12.ne]
  · rw [if_pos ⟨hr01.le, hr12.le⟩,
      spline3_at_knot1 _ _ _ _ _ _ hr01.ne (hr01.trans hr12).ne hr12.ne]
  · rw [if_pos ⟨le_of_lt (hr01.trans hr12), le_refl _⟩,
      spline3_at_knot2 _ _ _ _ _ _ hr01.ne (hr01.trans hr12).ne hr12.ne]

/- ============ Evaluation lemmas for the concrete EOS samples ============ -/

lemma quarkSample_a2 : quarkSample.a2 ≠ 0 := one_ne_zero

lemma quarkSample_a4_pos : 0 < quarkSample.a4 := by
  show (0 : ℝ) < 3 / (16 * π ^ 2)
  have hpi := Real.pi_pos
  positivity

lemma quarkSample_a4 : quarkSample.a4 ≠ 0 := quarkSample_a4_pos.ne'

lemma quarkSample_B : quarkSample.B = 1 := rfl

lemma quarkSample_T : quarkSample.T = 3 := by
  unfold QuarkEOS.T quarkSample QuarkEOS.build
  have hpi : (π : ℝ) ≠ 0 := Real.pi_ne_zero
  field_simp

lemma quarkSample_p_one : quarkSample.p 1 = -17 / 9 := by
  rw [quark_p_T_form _ _ quarkSample_a2 quarkSample_a4,
    quark_pRadicand_T_form _ _ quarkSample_a2 quarkSample_a4, quarkSample_T, quarkSample_B]
  rw [show (1 : ℝ) + 3 * ((1 : ℝ) - 1) = 1 by norm_num, Real.sqrt_one]
  norm_num

lemma quarkSample_rhoRadicand_of_p_one : quarkSample.rhoRadicand (-17 / 9) = 1 / 9 := by
  rw [quark_rhoRadicand_T_form _ _ quarkSample_a2 quarkSample_a4, quarkSample_T,
    quarkSample_B]
  norm_num

lemma quarkSample_rho_of_p_one : quarkSample.rho (-17 / 9) = 11 / 3 := by
  rw [quark_rho_T_form _ _ quarkSample_a2 quarkSample_a4,
    quarkSample_rhoRadicand_of_p_one, quarkSample_T, quarkSample_B]
  rw [show (1 : ℝ) / 9 = (1 / 3 : ℝ) ^ 2 by norm_num, Real.sqrt_sq (by norm_num)]
  norm_num

/- ===================== Claim theorems ===================== -/

/-- C1: the family sweep evaluated at a nonempty central-pressure sequence.
StarFamily.solve_tov (src/star_family.py line 47) passes 7 positional arguments to
star_object.solve_tov, but the Star class it imports (src/star_structure.py line 39)
declares only 4 positional parameters after self (r_begin, r_end, r_nsamples, method)
and accepts no per-star central pressure, so the very first loop iteration raises
TypeError and the sweep never stores any radius or mass. -/
theorem C1_family_sweep_raises_type_error :
    StarFamily.build (fun p => p) [1, 2] 0 = .ok famC1 ∧
    famC1.solve_tov (fun _ => solC1) =
      .error "TypeError: solve_tov() takes from 1 to 5 positional arguments but 8 were given" ∧
    ¬ familySolveTovArgCount ≤ starSolveTovParamCount :=
  ⟨rfl, rfl, by decide⟩

/-- C5: whenever Star.solve_tov returns normally with the surface event fired
(status 1), the star radius is the event-localized radial coordinate t_events[0][0]
and the star mass the mass component y_events[0][0][1] of the event-localized state,
not the values t[-1], y[1][-1] of the last accepted step. -/
theorem C5_radius_mass_from_event (s : Star) (sol : OdeSolution) (s' : Star)
    (hstatus : sol.status = 1) (hok : Star.solve_tov_body s sol = .ok s') :
    s'.star_radius = sol.tEvent0 ∧ s'.star_mass = sol.mEvent0 ∧
    (sol.tEvent0 ≠ sol.tFinal → s'.star_radius ≠ sol.tFinal) ∧
    (sol.mEvent0 ≠ sol.mFinal → s'.star_mass ≠ sol.mFinal) := by
  simp only [Star.solve_tov_body, hstatus] at hok
  norm_num at hok
  subst hok
  exact ⟨rfl, rfl, fun h => h, fun h => h⟩

theorem C5_radius_mass_from_event_witness :
    starC5ok.star_radius = solC5.tEvent0 ∧ starC5ok.star_mass = solC5.mEvent0 ∧
    (solC5.tEvent0 ≠ solC5.tFinal → starC5ok.star_radius ≠ solC5.tFinal) ∧
    (solC5.mEvent0 ≠ solC5.mFinal → starC5ok.star_mass ≠ solC5.mFinal) :=
  C5_radius_mass_from_event starC5 solC5 starC5ok rfl rfl

/-- C6: Star.solve_tov (src/star_structure.py lines 48-58) signals exactly one of two
distinct failure conditions: on integrator failure (status -1) it raises an exception
carrying the integrator diagnostic message, on event-not-found (status 0) it raises an
exception with the fixed event-not-found message, and it returns normally exactly when
the surface event fired (status 1). -/
theorem C6_failure_conditions (s : Star) (sol : OdeSolution)
    (hs : sol.status = -1 \/ sol.status = 0 \/ sol.status = 1) :
    (sol.status = -1 -> Star.solve_tov_body s sol = .error sol.message) ∧
    (sol.status = 0 -> Star.solve_tov_body s sol =
      .error "The solver did not find the ODE termination event") ∧
    ((∃ s', Star.solve_tov_body s sol = .ok s') ↔ sol.status = 1) := by
  rcases hs with h | h | h <;> simp [Star.solve_tov_body, h]

theorem C6_failure_conditions_witness :
    (solC6.status = -1 -> Star.solve_tov_body starC6 solC6 = .error solC6.message) ∧
    (solC6.status = 0 -> Star.solve_tov_body starC6 solC6 =
      .error "The solver did not find the ODE termination event") ∧
    ((∃ s', Star.solve_tov_body starC6 solC6 = .ok s') ↔ solC6.status = 1) :=
  C6_failure_conditions starC6 solC6 (Or.inl rfl)

/-- C7: when the derivative spline has at least one real root in the sampled range
(scipy lists the roots in ascending order, taken as hypothesis),
_calc_maximum_k2_star returns the first root in increasing rho_center order — the
least of all roots — as the maximum-k2 central density and sets maximum_k2 to the k2
spline evaluated at that root, also when several roots exist. -/
theorem C7_first_root_selected (fam : DeformedStarFamily) (k2_spline : ℝ → ℝ)
    (roots : List ℝ) (hne : roots ≠ []) (hsorted : List.Sorted (· ≤ ·) roots) :
    ∃ r, roots.head? = some r ∧
      (∀ x ∈ roots, r ≤ x) ∧
      DeformedStarFamily.calc_maximum_k2_star fam k2_spline roots =
        ({ fam with maximum_k2_star_rho_center := r,
                    maximum_k2 := ((k2_spline r : ℝ) : EReal) }, r) := by
  match roots, hne with
  | r :: rest, _ =>
    refine ⟨r, rfl, ?_, rfl⟩
    intro x hx
    rcases List.mem_cons.mp hx with h | h
    · exact h ▸ le_refl r
    · exact (List.sorted_cons.mp hsorted).1 x h

theorem C7_first_root_selected_witness :
    ∃ r, ([1, 2, 3] : List ℝ).head? = some r ∧
      (∀ x ∈ ([1, 2, 3] : List ℝ), r ≤ x) ∧
      DeformedStarFamily.calc_maximum_k2_star dfamC7 (fun x => x + 1) [1, 2, 3] =
        ({ dfamC7 with maximum_k2_star_rho_center := r,
                       maximum_k2 := (((fun (x : ℝ) => x + 1) r : ℝ) : EReal) }, r) :=
  C7_first_root_selected dfamC7 (fun x => x + 1) [1, 2, 3] (by simp)
    (by norm_num [List.sorted_cons])

/-- C8 counterexample: on a freshly constructed family (sentinel MAX_RHO = 5,
maximum_k2 = inf), _calc_maximum_k2_star applied to an empty root list returns
normally, yields the sentinel MAX_RHO as its value, and leaves maximum_k2 at inf:
no not-found condition of any kind is signalled. -/
theorem C8_no_root_counterexample :
    DeformedStarFamily.build 5 [1] = .ok dfamC8 ∧
    DeformedStarFamily.calc_maximum_k2_star dfamC8 (fun x => x) [] = (dfamC8, 5) ∧
    dfamC8.maximum_k2 = ⊤ :=
  ⟨rfl, rfl, rfl⟩

/-- C8 amended: when the derivative spline of the k2 curve has no real root within the
sampled range, _calc_maximum_k2_star signals nothing: it returns normally, leaving
maximum_k2_star_rho_center and maximum_k2 at their current (initialized sentinel
MAX_RHO and inf) values, and yields that sentinel as its return value, as if an
extremum had been located there. -/
theorem C8_no_root_returns_sentinel (fam : DeformedStarFamily) (k2_spline : ℝ → ℝ) :
    DeformedStarFamily.calc_maximum_k2_star fam k2_spline [] =
      (fam, fam.maximum_k2_star_rho_center) := rfl

/-- C9 counterexample: constructing a StarFamily on an empty central-pressure sequence
raises IndexError at the indexing p_center_space[0] of src/star_family.py line 26,
for any EOS function and surface pressure (shown at a concrete one). -/
theorem C9_empty_family_counterexample :
    StarFamily.build (fun p => p) [] 0 =
      .error "IndexError: index 0 is out of bounds for axis 0 with size 0" := rfl

/-- C9 amended: family construction succeeds on every sequence with at least one entry
(for any EOS and surface pressure), but on the empty sequence both StarFamily and
DeformedStarFamily construction raise IndexError when indexing p_center_space[0]. -/
theorem C9_nonempty_construction (rho_eos : ℝ → ℝ) (ps : List ℝ)
    (p_surface MAX_RHO : ℝ) (h : ps ≠ []) :
    (∃ fam, StarFamily.build rho_eos ps p_surface = .ok fam ∧
      fam.p_center_space = ps) ∧
    (∃ dfam, DeformedStarFamily.build MAX_RHO ps = .ok dfam ∧
      dfam.p_center_space = ps) ∧
    StarFamily.build rho_eos [] p_surface =
      .error "IndexError: index 0 is out of bounds for axis 0 with size 0" ∧
    DeformedStarFamily.build MAX_RHO [] =
      .error "IndexError: index 0 is out of bounds for axis 0 with size 0" := by
  match ps, h with
  | p :: rest, _ => exact ⟨⟨_, rfl, rfl⟩, ⟨_, rfl, rfl⟩, rfl, rfl⟩

theorem C9_nonempty_construction_witness :
    (∃ fam, StarFamily.build (fun p => p) [1] 0 = .ok fam ∧
      fam.p_center_space = [1]) ∧
    (∃ dfam, DeformedStarFamily.build 5 [1] = .ok dfam ∧
      dfam.p_center_space = [1]) ∧
    StarFamily.build (fun p => p) [] 0 =
      .error "IndexError: index 0 is out of bounds for axis 0 with size 0" ∧
    DeformedStarFamily.build 5 [] =
      .error "IndexError: index 0 is out of bounds for axis 0 with size 0" :=
  C9_nonempty_construction (fun p => p) [1] 0 5 (by simp)

/-- C10: for every real pressure p including negative p, PolytropicEOS.rho is total and
(for k > 0) returns (|p|/k)^(1/(1+1/n)), which is non-negative; a negative pressure is
silently folded to the density of its absolute value, rho(-p) = rho(p), instead of
being rejected as outside the non-negative domain. -/
theorem C10_poly_rho_abs (k n p : ℝ) (hk : 0 < k) :
    (PolytropicEOS.build k n).rho p = (|p| / k) ^ (1 / (1 + 1 / n)) ∧
    0 ≤ (PolytropicEOS.build k n).rho p ∧
    (PolytropicEOS.build k n).rho (-p) = (PolytropicEOS.build k n).rho p := by
  refine ⟨?_, ?_, ?_⟩
  · unfold PolytropicEOS.rho PolytropicEOS.build
    rw [abs_div, abs_of_pos hk]
  · exact Real.rpow_nonneg (abs_nonneg _) _
  · unfold PolytropicEOS.rho PolytropicEOS.build
    rw [neg_div, abs_neg]

theorem C10_poly_rho_abs_witness :
    (PolytropicEOS.build 1 1).rho (-2) = (|(-2 : ℝ)| / 1) ^ ((1 : ℝ) / (1 + 1 / 1)) ∧
    0 ≤ (PolytropicEOS.build 1 1).rho (-2) ∧
    (PolytropicEOS.build 1 1).rho (-(-2)) = (PolytropicEOS.build 1 1).rho (-2) :=
  C10_poly_rho_abs 1 1 (-2) (by norm_num)

/- ===================== Claims C2, C3, C4 ===================== -/

/-- C2 counterexample: for the QuarkEOS with B = 1, a2 = 1, a4 = 3/(16 pi^2) and
rho0 = 1, both square-root radicands met along the round trip are non-negative, yet
rho(p(1)) = 11/3, not 1: the closed forms are not mutual inverses on the whole
radicand-non-negative domain, exactly nor within tolerance. -/
theorem C2_quark_roundtrip_counterexample :
    0 ≤ quarkSample.pRadicand 1 ∧
    0 ≤ quarkSample.rhoRadicand (quarkSample.p 1) ∧
    quarkSample.rho (quarkSample.p 1) = 11 / 3 ∧
    quarkSample.rho (quarkSample.p 1) ≠ 1 := by
  have hpr : quarkSample.pRadicand 1 = 1 := by
    rw [quark_pRadicand_T_form _ _ quarkSample_a2 quarkSample_a4, quarkSample_T,
      quarkSample_B]
    norm_num
  refine ⟨by rw [hpr]; norm_num, ?_, ?_, ?_⟩
  · rw [quarkSample_p_one, quarkSample_rhoRadicand_of_p_one]
    norm_num
  · rw [quarkSample_p_one, quarkSample_rho_of_p_one]
  · rw [quarkSample_p_one, quarkSample_rho_of_p_one]
    norm_num

/-- C2 amended: the maps are mutual inverses in this form: for PolytropicEOS (k > 0,
n > 0) exactly, on non-negative arguments; for QuarkEOS (a2, a4 nonzero),
p(rho(p0)) = p0 exactly whenever the rho radicand is non-negative, while
rho(p(rho0)) = rho0 exactly on the branch where the p radicand is at least 4
(below that bound the round trip fails, per the counterexample); for TableEOS the
two splines are exact mutual inverses at the table knots. -/
theorem C2_roundtrip_amended :
    (∀ k n p0 : ℝ, 0 < k → 0 < n → 0 ≤ p0 →
      (PolytropicEOS.build k n).p ((PolytropicEOS.build k n).rho p0) = p0) ∧
    (∀ k n r0 : ℝ, 0 < k → 0 < n → 0 ≤ r0 →
      (PolytropicEOS.build k n).rho ((PolytropicEOS.build k n).p r0) = r0) ∧
    (∀ (q : QuarkEOS) (p0 : ℝ), q.a2 ≠ 0 → q.a4 ≠ 0 → 0 ≤ q.rhoRadicand p0 →
      q.p (q.rho p0) = p0) ∧
    (∀ (q : QuarkEOS) (r0 : ℝ), q.a2 ≠ 0 → q.a4 ≠ 0 → 4 ≤ q.pRadicand r0 →
      q.rho (q.p r0) = r0) ∧
    (∀ e : TableEOS3, e.rho0 < e.rho1 → e.rho1 < e.rho2 → e.p0 < e.p1 → e.p1 < e.p2 →
      ((e.rho e.p0).bind e.p = some e.p0 ∧ (e.rho e.p1).bind e.p = some e.p1 ∧
        (e.rho e.p2).bind e.p = some e.p2 ∧ (e.p e.rho0).bind e.rho = some e.rho0 ∧
        (e.p e.rho1).bind e.rho = some e.rho1 ∧ (e.p e.rho2).bind e.rho = some e.rho2)) := by
  refine ⟨poly_p_rho_exact, poly_rho_p_exact, quark_p_rho_exact, quark_rho_p_exact, ?_⟩
  intro e hr01 hr12 hp01 hp12
  obtain ⟨h1, h2, h3⟩ := table_rho_knots e hr01 hr12 hp01 hp12
  obtain ⟨g1, g2, g3⟩ := table_p_knots e hr01 hr12 hp01 hp12
  exact ⟨by rw [h1]; simpa using g1, by rw [h2]; simpa using g2, by rw [h3]; simpa using g3,
    by rw [g1]; simpa using h1, by rw [g2]; simpa using h2, by rw [g3]; simpa using h3⟩

theorem C2_roundtrip_amended_witness :
    (PolytropicEOS.build 1 1).p ((PolytropicEOS.build 1 1).rho 4) = 4 ∧
    (PolytropicEOS.build 1 1).rho ((PolytropicEOS.build 1 1).p 9) = 9 ∧
    quarkSample.p (quarkSample.rho 0) = 0 ∧
    quarkSample.rho (quarkSample.p 2) = 2 ∧
    (tableSample.rho tableSample.p1).bind tableSample.p = some tableSample.p1 := by
  refine ⟨C2_roundtrip_amended.1 1 1 4 (by norm_num) (by norm_num) (by norm_num),
    C2_roundtrip_amended.2.1 1 1 9 (by norm_num) (by norm_num) (by norm_num),
    C2_roundtrip_amended.2.2.1 quarkSample 0 quarkSample_a2 quarkSample_a4 ?_,
    C2_roundtrip_amended.2.2.2.1 quarkSample 2 quarkSample_a2 quarkSample_a4 ?_,
    (C2_roundtrip_amended.2.2.2.2 tableSample (by norm_num [tableSample])
      (by norm_num [tableSample]) (by norm_num [tableSample])
      (by norm_num [tableSample])).2.1⟩
  · rw [quark_rhoRadicand_T_form _ _ quarkSample_a2 quarkSample_a4, quarkSample_T,
      quarkSample_B]
    norm_num
  · rw [quark_pRadicand_T_form _ _ quarkSample_a2 quarkSample_a4, quarkSample_T,
      quarkSample_B]
    norm_num

/-- C3: the QuarkEOS constructor stores any parameter triple unchecked
(QuarkEOS.build is total and just copies its arguments), and at an argument making
the square-root radicand negative the evaluation silently produces a non-real value
(a complex scalar, NaN for arrays, in Python; the none outcome here) instead of
signalling an invalid-parameter condition.  Evaluated at B = 1, a2 = 1,
a4 = 3/(16 pi^2) and p = -3, where the rho radicand is -1. -/
theorem C3_quark_silent_nonreal :
    QuarkEOS.build 1 1 (3 / (16 * π ^ 2)) = quarkSample ∧
    quarkSample.rhoRadicand (-3) = -1 ∧
    quarkSample.rhoReal? (-3) = none := by
  have hrad : quarkSample.rhoRadicand (-3) = -1 := by
    rw [quark_rhoRadicand_T_form _ _ quarkSample_a2 quarkSample_a4, quarkSample_T,
      quarkSample_B]
    norm_num
  refine ⟨rfl, hrad, ?_⟩
  unfold QuarkEOS.rhoReal?
  rw [if_neg (by rw [hrad]; norm_num)]

/-- C4 counterexample: the TableEOS built from the strictly increasing three-row table
(p, rho) = (0, 0), (1, 9), (2, 10) — physically valid construction data — has a
rho(p) interpolant that takes the value 10.26 at p = 1.9 but 10 at p = 2: rho(p) is
not non-decreasing at every pair of in-range points. -/
theorem C4_table_monotonicity_counterexample :
    tableSample.p0 < tableSample.p1 ∧ tableSample.p1 < tableSample.p2 ∧
    tableSample.rho0 < tableSample.rho1 ∧ tableSample.rho1 < tableSample.rho2 ∧
    tableSample.rho (19 / 10) = some (1026 / 100) ∧
    tableSample.rho 2 = some 10 ∧
    ¬ ((1026 / 100 : ℝ) ≤ 10) := by
  refine ⟨by norm_num [tableSample], by norm_num [tableSample], by norm_num [tableSample],
    by norm_num [tableSample], ?_, ?_, by norm_num⟩
  · unfold tableSample TableEOS3.rho
    rw [if_pos (by norm_num)]
    unfold notAKnotSpline3
    norm_num
  · unfold tableSample TableEOS3.rho
    rw [if_pos (by norm_num)]
    unfold notAKnotSpline3
    norm_num

/-- C4 amended: rho(p) and p(rho) are non-decreasing for PolytropicEOS (k > 0, n > 0,
non-negative arguments) and for QuarkEOS (a2 nonzero, a4 > 0: rho(p) on the
radicand-non-negative domain where the code returns a real value, p(rho) on the
physical branch where the p radicand is at least 4); for TableEOS the cubic-spline
interpolants of a strictly increasing table need not be monotone between knots, per
the counterexample. -/
theorem C4_monotonicity_amended :
    (∀ k n p1 p2 : ℝ, 0 < k → 0 < n → 0 ≤ p1 → p1 ≤ p2 →
      (PolytropicEOS.build k n).rho p1 ≤ (PolytropicEOS.build k n).rho p2) ∧
    (∀ k n r1 r2 : ℝ, 0 < k → 0 < n → 0 ≤ r1 → r1 ≤ r2 →
      (PolytropicEOS.build k n).p r1 ≤ (PolytropicEOS.build k n).p r2) ∧
    (∀ (q : QuarkEOS) (p1 p2 : ℝ), q.a2 ≠ 0 → 0 < q.a4 → 0 ≤ q.rhoRadicand p1 →
      p1 ≤ p2 → q.rho p1 ≤ q.rho p2) ∧
    (∀ (q : QuarkEOS) (r1 r2 : ℝ), q.a2 ≠ 0 → 0 < q.a4 → 4 ≤ q.pRadicand r1 →
      r1 ≤ r2 → q.p r1 ≤ q.p r2) :=
  ⟨poly_rho_mono, poly_p_mono, quark_rho_mono, quark_p_mono⟩

theorem C4_monotonicity_amended_witness :
    (PolytropicEOS.build 1 1).rho 1 ≤ (PolytropicEOS.build 1 1).rho 2 ∧
    (PolytropicEOS.build 1 1).p 1 ≤ (PolytropicEOS.build 1 1).p 2 ∧
    quarkSample.rho 0 ≤ quarkSample.rho 1 ∧
    quarkSample.p 2 ≤ quarkSample.p 3 := by
  refine ⟨C4_monotonicity_amended.1 1 1 1 2 (by norm_num) (by norm_num) (by norm_num)
      (by norm_num),
    C4_monotonicity_amended.2.1 1 1 1 2 (by norm_num) (by norm_num) (by norm_num)
      (by norm_num),
    C4_monotonicity_amended.2.2.1 quarkSample 0 1 quarkSample_a2 quarkSample_a4_pos ?_
      (by norm_num),
    C4_monotonicity_amended.2.2.2 quarkSample 2 3 quarkSample_a2 quarkSample_a4_pos ?_
      (by norm_num)⟩
  · rw [quark_rhoRadicand_T_form _ _ quarkSample_a2 quarkSample_a4, quarkSample_T,
      quarkSample_B]
    norm_num
  · rw [quark_pRadicand_T_form _ _ quarkSample_a2 quarkSample_a4, quarkSample_T,
      quarkSample_B]
    norm_num

end Joavz
